import Mathlib

/-!
Shallow embedding of the Cryer advertising scheduler.

Conventions used throughout:
* JS strings: `""` models both the empty string and an absent
  (`undefined`/`null`) string field, so JS truthiness of a string is `≠ ""`.
* Times are epoch milliseconds (or epoch seconds where the source divides by
  1000) modelled as `Int`.
* External I/O (the Reddit submit call, the recent-submission lookup, the
  submission-info fetch) is modelled by oracle arguments giving the outcome of
  the call, were it to be made.
-/

namespace Cryer

/-- JS `hay.includes(needle)`: `needle` occurs as a contiguous substring of
`hay`. -/
def strIncludes (hay needle : String) : Prop :=
  needle.data <:+: hay.data

instance (hay needle : String) : Decidable (strIncludes hay needle) :=
  inferInstanceAs (Decidable (needle.data <:+: hay.data))

theorem strIncludes_refl (s : String) : strIncludes s s :=
  List.infix_refl s.data

theorem strIncludes_append_right (a t : String) : strIncludes (a ++ t) t := by
  unfold strIncludes
  rw [String.data_append]
  exact (List.suffix_append a.data t.data).isInfix

theorem str_ne_empty_iff (s : String) : s ≠ "" ↔ s.data ≠ [] := by
  constructor
  · intro h h'
    exact h (String.ext (h'.trans rfl))
  · intro h h'
    exact h (congrArg String.data h')

theorem append_ne_empty_right (a t : String) (h : t ≠ "") : a ++ t ≠ "" := by
  rw [str_ne_empty_iff] at h ⊢
  rw [String.data_append]
  simp [h]

/-- JS `s.toLowerCase()` / the regex `i` flag's case folding, written over the
character list (extensionally `String.toLower`, which maps `Char.toLower`
over the string). -/
def strToLower (s : String) : String :=
  ⟨s.data.map Char.toLower⟩

/-- A post template (`entry.post` in `subreddits.json`); `type` is `self` or
`link`. Absent string fields are `""`. -/
structure Post where
  type : String
  title : String
  body : String
  url : String
  flair_id : String
  flair_text : String
deriving Repr, DecidableEq

/-- Per-tenant defaults (`server.json`'s `defaults{title, invite, body}`). -/
structure Defaults where
  title : String
  invite : String
  body : String
deriving Repr, DecidableEq

/-- `if (!out.body && d.body) out.body = d.body` (part_002 line 68). -/
def bodyFallback (d : Defaults) (b : String) : String :=
  if b = "" ∧ d.body ≠ "" then d.body else b

/-- `if (d.invite && out.body && !out.body.includes(d.invite)) out.body += ...`
(part_002 line 69). -/
def bodyAppendInvite (d : Defaults) (b : String) : String :=
  if d.invite ≠ "" ∧ b ≠ "" ∧ ¬ strIncludes b d.invite then b ++ "\n\n" ++ d.invite else b

/-- `if (d.invite && !out.body) out.body = d.invite` (part_002 line 70). -/
def bodyInviteOnly (d : Defaults) (b : String) : String :=
  if d.invite ≠ "" ∧ b = "" then d.invite else b

/-- The three successive body-defaulting statements applied to a `self` post's
body. -/
def mergeSelfBody (d : Defaults) (b : String) : String :=
  bodyInviteOnly d (bodyAppendInvite d (bodyFallback d b))

/-- Title fallback (`if (!out.title && d.title) out.title = d.title`,
part_002 line 66). -/
def mergeTitle (d : Defaults) (p : Post) : Post :=
  if p.title = "" ∧ d.title ≠ "" then { p with title := d.title } else p

/-- `withServerDefaults` (part_002 lines 62-75); the CLI's `mergeDefaults`
(part_001 lines 294-310) has character-for-character the same merging logic,
so one definition embeds both.  The title fallback runs first and never
changes `type`, so branching on `post.type` matches the source's branching on
`out.type`. -/
def mergeDefaults (d : Defaults) (post : Post) : Post :=
  if post.type = "self" then
    { mergeTitle d post with body := mergeSelfBody d (mergeTitle d post).body }
  else if post.type = "link" then
    (if (mergeTitle d post).url = "" ∧ d.invite ≠ "" then
      { mergeTitle d post with url := d.invite } else mergeTitle d post)
  else mergeTitle d post

theorem mergeSelfBody_invite (d : Defaults) (b : String) (hinv : d.invite ≠ "") :
    mergeSelfBody d b ≠ "" ∧ strIncludes (mergeSelfBody d b) d.invite := by
  unfold mergeSelfBody bodyInviteOnly
  by_cases h2 : d.invite ≠ "" ∧ bodyAppendInvite d (bodyFallback d b) = ""
  · rw [if_pos h2]
    exact ⟨hinv, strIncludes_refl _⟩
  · rw [if_neg h2]
    have hb : bodyAppendInvite d (bodyFallback d b) ≠ "" := fun hc => h2 ⟨hinv, hc⟩
    refine ⟨hb, ?_⟩
    unfold bodyAppendInvite at hb ⊢
    by_cases h3 : d.invite ≠ "" ∧ bodyFallback d b ≠ "" ∧
        ¬ strIncludes (bodyFallback d b) d.invite
    · rw [if_pos h3]
      exact strIncludes_append_right _ _
    · rw [if_neg h3]
      rw [if_neg h3] at hb
      have hincl : strIncludes (bodyFallback d b) d.invite := by
        by_contra hc
        exact h3 ⟨hinv, hb, hc⟩
      exact hincl

theorem mergeSelfBody_idem (d : Defaults) (b : String) :
    mergeSelfBody d (mergeSelfBody d b) = mergeSelfBody d b := by
  by_cases hinv : d.invite = ""
  · have hguard2 : ∀ x : String, bodyAppendInvite d x = x := by
      intro x
      unfold bodyAppendInvite
      rw [if_neg (fun hc => hc.1 hinv)]
    have hguard3 : ∀ x : String, bodyInviteOnly d x = x := by
      intro x
      unfold bodyInviteOnly
      rw [if_neg (fun hc => hc.1 hinv)]
    unfold mergeSelfBody
    rw [hguard2, hguard3, hguard2, hguard3]
    unfold bodyFallback
    by_cases h1 : b = "" ∧ d.body ≠ ""
    · rw [if_pos h1, if_neg (fun hc : d.body = "" ∧ d.body ≠ "" => hc.2 hc.1)]
    · rw [if_neg h1, if_neg h1]
  · have key := mergeSelfBody_invite d b hinv
    show bodyInviteOnly d (bodyAppendInvite d (bodyFallback d (mergeSelfBody d b)))
        = mergeSelfBody d b
    rw [show bodyFallback d (mergeSelfBody d b) = mergeSelfBody d b from
          if_neg (fun hc => key.1 hc.1),
        show bodyAppendInvite d (mergeSelfBody d b) = mergeSelfBody d b from
          if_neg (fun hc => hc.2.2 key.2)]
    exact if_neg (fun hc => key.1 hc.2)

theorem mergeTitle_type (d : Defaults) (p : Post) : (mergeTitle d p).type = p.type := by
  unfold mergeTitle
  split <;> rfl

theorem mergeTitle_body (d : Defaults) (p : Post) : (mergeTitle d p).body = p.body := by
  unfold mergeTitle
  split <;> rfl

theorem mergeTitle_url (d : Defaults) (p : Post) : (mergeTitle d p).url = p.url := by
  unfold mergeTitle
  split <;> rfl

theorem mergeTitle_idem_guard (d : Defaults) (p : Post) :
    ¬ ((mergeTitle d p).title = "" ∧ d.title ≠ "") := by
  unfold mergeTitle
  by_cases h : p.title = "" ∧ d.title ≠ ""
  · rw [if_pos h]
    exact fun hc => hc.2 hc.1
  · rw [if_neg h]
    exact h

theorem mergeTitle_stable (d : Defaults) (p : Post)
    (h : ¬ (p.title = "" ∧ d.title ≠ "")) : mergeTitle d p = p := by
  unfold mergeTitle
  exact if_neg h

theorem mergeDefaults_eq_self (d : Defaults) (q : Post) (h : q.type = "self") :
    mergeDefaults d q =
      { mergeTitle d q with body := mergeSelfBody d (mergeTitle d q).body } := by
  unfold mergeDefaults
  rw [if_pos h]

theorem mergeDefaults_eq_link (d : Defaults) (q : Post)
    (h1 : ¬ q.type = "self") (h2 : q.type = "link") :
    mergeDefaults d q =
      (if (mergeTitle d q).url = "" ∧ d.invite ≠ "" then
        { mergeTitle d q with url := d.invite } else mergeTitle d q) := by
  unfold mergeDefaults
  rw [if_neg h1, if_pos h2]

theorem mergeDefaults_eq_other (d : Defaults) (q : Post)
    (h1 : ¬ q.type = "self") (h2 : ¬ q.type = "link") :
    mergeDefaults d q = mergeTitle d q := by
  unfold mergeDefaults
  rw [if_neg h1, if_neg h2]

theorem mergeDefaults_type (d : Defaults) (p : Post) :
    (mergeDefaults d p).type = p.type := by
  by_cases hs : p.type = "self"
  · rw [mergeDefaults_eq_self d p hs]
    exact mergeTitle_type d p
  · by_cases hl : p.type = "link"
    · rw [mergeDefaults_eq_link d p hs hl]
      split <;> exact mergeTitle_type d p
    · rw [mergeDefaults_eq_other d p hs hl]
      exact mergeTitle_type d p

theorem mergeDefaults_title (d : Defaults) (p : Post) :
    (mergeDefaults d p).title = (mergeTitle d p).title := by
  by_cases hs : p.type = "self"
  · rw [mergeDefaults_eq_self d p hs]
  · by_cases hl : p.type = "link"
    · rw [mergeDefaults_eq_link d p hs hl]
      split <;> rfl
    · rw [mergeDefaults_eq_other d p hs hl]

/-- Claim C10: merging tenant defaults into a target's post content
(`withServerDefaults` / `mergeDefaults`) is idempotent: for every defaults
record and every post, applying the merge twice yields the same post as
applying it once — in particular the permanent invite is appended to a self
post's body at most once, because the append is guarded by the
body-contains-invite check. -/
theorem c10_mergeDefaults_idempotent (d : Defaults) (p : Post) :
    mergeDefaults d (mergeDefaults d p) = mergeDefaults d p := by
  have hmt : mergeTitle d (mergeDefaults d p) = mergeDefaults d p := by
    apply mergeTitle_stable
    rw [mergeDefaults_title]
    exact mergeTitle_idem_guard d p
  by_cases hs : p.type = "self"
  · rw [mergeDefaults_eq_self d (mergeDefaults d p) (by rw [mergeDefaults_type]; exact hs),
        hmt]
    have hbody : (mergeDefaults d p).body = mergeSelfBody d (mergeTitle d p).body := by
      rw [mergeDefaults_eq_self d p hs]
    rw [hbody, mergeSelfBody_idem, ← hbody]
  · by_cases hl : p.type = "link"
    · rw [mergeDefaults_eq_link d (mergeDefaults d p)
            (by rw [mergeDefaults_type]; exact hs) (by rw [mergeDefaults_type]; exact hl),
          hmt]
      have hr := mergeDefaults_eq_link d p hs hl
      by_cases hu : (mergeTitle d p).url = "" ∧ d.invite ≠ ""
      · have hurl : (mergeDefaults d p).url = d.invite := by
          rw [hr, if_pos hu]
        rw [if_neg (fun hc => hu.2 (hurl.symm.trans hc.1))]
      · have hurl : (mergeDefaults d p).url = (mergeTitle d p).url := by
          rw [hr, if_neg hu]
        rw [if_neg (fun hc => hu ⟨hurl.symm.trans hc.1, hc.2⟩)]
    · rw [mergeDefaults_eq_other d (mergeDefaults d p)
            (by rw [mergeDefaults_type]; exact hs) (by rw [mergeDefaults_type]; exact hl),
          hmt]

/-! ## Session data model -/

/-- Per-target rules. `cooldownDays = none` models an unset or non-finite
value (`Number.isFinite(rules.cooldownDays)` false); `requirePermanentInvite`
is JS tri-state: absent (`none`), `true`, or `false`; the gate in the source
is `rules.requirePermanentInvite !== false`. -/
structure Rules where
  cooldownDays : Option Int
  requirePermanentInvite : Option Bool
deriving Repr, DecidableEq

/-- One entry of a tenant's `subreddits.json` list. `post = none` models an
absent `entry.post` (the source substitutes `{type:'self', title:'', body:''}`). -/
structure SubEntry where
  key : String
  subreddit : String
  rules : Rules
  post : Option Post
deriving Repr, DecidableEq

/-- The fallback post `{ type: 'self', title: '', body: '' }`. -/
def defaultPost : Post := ⟨"self", "", "", "", "", ""⟩

/-- `entry.key || subreddit`: the cooldown-map key of an entry. -/
def entryKey (e : SubEntry) : String :=
  if e.key ≠ "" then e.key else e.subreddit

/-- The per-tenant cooldown map (`cooldowns.json`), target key ↦ last-success
epoch ms. -/
abbrev Cooldowns := List (String × Int)

/-- `cooldowns[k] || 0`. -/
def cdGet (cds : Cooldowns) (k : String) : Int :=
  (cds.lookup k).getD 0

/-- JS object assignment `cooldowns[k] = v`. -/
def cdSet (cds : Cooldowns) (k : String) (v : Int) : Cooldowns :=
  match cds with
  | [] => [(k, v)]
  | (k', v') :: rest => if k' = k then (k, v) :: rest else (k', v') :: cdSet rest k v

/-- The regex test `/(discord\.gg|discord\.com\/invite)\//i.test(s)`. -/
def invitePattern (s : String) : Prop :=
  strIncludes (strToLower s) "discord.gg/"
  ∨ strIncludes (strToLower s) "discord.com/invite/"

instance (s : String) : Decidable (invitePattern s) :=
  inferInstanceAs (Decidable (_ ∨ _))

/-- Validation of a merged post (part_002 lines 150-166), returning the
`errors` list in push order. -/
def validateErrors (inviteRequired : Bool) (post : Post) : List String :=
  (if post.title = "" then ["title is required"] else []) ++
  (if post.type = "self" then
    (if post.body = "" then ["body is required for self posts"] else []) ++
    (if inviteRequired ∧ post.body ≠ "" ∧ ¬ invitePattern post.body then
      ["permanent invite link required in body"] else [])
  else if post.type = "link" then
    (if post.url = "" then ["url is required for link posts"] else []) ++
    (if inviteRequired ∧ post.url ≠ "" ∧ ¬ invitePattern post.url then
      ["permanent invite link required as link URL"] else [])
  else ["unsupported post type"])

/-- Lifecycle status of a posted record. -/
inductive PStatus where
  | live
  | removed
  | expired
  | unknown
deriving Repr, DecidableEq

/-- The `removal{category, checkedUtc}` stamp. -/
structure Removal where
  category : String
  checkedUtc : Int
deriving Repr, DecidableEq

/-- One entry of a tenant's `posted.json` list. `id = ""` models a falsy/absent
id, `createdUtc = 0` a falsy/absent creation time (epoch seconds). -/
structure PostedRecord where
  id : String
  subreddit : String
  serverKey : String
  createdUtc : Int
  status : PStatus
  removal : Option Removal
deriving Repr, DecidableEq

/-- The `json` data of a successful `submitPost` response; each field may be
missing (`none`) or present. -/
structure SubmitData where
  id : Option String
  name : Option String
  url : Option String
deriving Repr, DecidableEq

/-- Outcome of the `submitPost` call for one target: a successful response, or
a thrown error carrying `e.message`. -/
inductive PubOutcome where
  | success (data : SubmitData)
  | thrown (message : String)
deriving Repr, DecidableEq

/-- Result of `resolveRecentSubmission` when it finds a match:
`{ id: d.id, permalink: d.permalink || d.url }`. -/
structure Resolved where
  rid : Option String
  rpermalink : Option String
deriving Repr, DecidableEq

/-- JS truthiness of a possibly-missing string. -/
def truthyS : Option String → Bool
  | none => false
  | some s => s ≠ ""

/-- JS `a || b` on possibly-missing strings. -/
def jsOrS (a b : Option String) : Option String :=
  if truthyS a then a else b

/-- JS `x || null`: collapse a falsy value to `none`. -/
def jsNorm (a : Option String) : Option String :=
  if truthyS a then a else none

/-- `name.replace(/^t3_/, '')`. -/
def stripT3 (s : String) : String :=
  if s.startsWith "t3_" then s.drop 3 else s

/-- Id/permalink resolution after a successful submit (part_002 lines 198-204):
take them from the response, and if either is missing fall back to the
recent-submission lookup (whose outcome the `resolver` oracle supplies). -/
def resolveIds (data : SubmitData) (resolver : Option Resolved) :
    Option String × Option String :=
  let id0 := jsNorm (jsOrS data.id (data.name.map stripT3))
  let pl0 := jsNorm data.url
  if id0 = none ∨ pl0 = none then
    match resolver with
    | some r => (jsNorm (jsOrS r.rid id0), jsNorm (jsOrS r.rpermalink pl0))
    | none => (id0, pl0)
  else (id0, pl0)

/-- A per-target outcome pushed onto `results`. -/
inductive Outcome where
  | skip_cooldown (subreddit : String) (inHours : Int)
  | invalid (subreddit : String) (errors : List String)
  | dry_run_ok (subreddit : String) (post : Post)
  | posted (subreddit : String) (id permalink : Option String)
  | error (subreddit : String) (message : String)
deriving Repr, DecidableEq

/-- `Math.ceil(waitMs / 3600000)` for the positive waits at which the source
evaluates it (for positive operands floor, truncating and Euclidean division
coincide). -/
def ceilHours (waitMs : Int) : Int :=
  (waitMs + 3599999) / 3600000

/-- Session-loop state: the tenant's cooldown map and posted list plus the
accumulating `results` and `postedCount`. -/
structure SessState where
  cooldowns : Cooldowns
  posted : List PostedRecord
  results : List Outcome
  postedCount : Nat
deriving Repr, DecidableEq

/-- The loop-local `waitMs = cdMs - (now - last)` with
`cdMs = days * 24 * 3600000`, `days` defaulting to 1 when unset/non-finite and
`last = cooldowns[entry.key || subreddit] || 0` (part_002 lines 136-141). -/
def targetWait (now : Int) (st : SessState) (e : SubEntry) : Int :=
  e.rules.cooldownDays.getD 1 * 24 * 3600000 - (now - cdGet st.cooldowns (entryKey e))

/-- The loop-local `errors` list for an entry, validated against the merged
post with `inviteRequired = rules.requirePermanentInvite !== false`. -/
def targetErrors (d : Defaults) (e : SubEntry) : List String :=
  validateErrors (e.rules.requirePermanentInvite ≠ some false)
    (mergeDefaults d (e.post.getD defaultPost))

/-- One iteration of the per-target loop of `POST /v1/advertise`
(part_002 lines 130-222).  `now` stands for the `Date.now()` readings during
this iteration; `pub` is the outcome the `submitPost` call would have and
`resolver` the outcome `resolveRecentSubmission` would have, were they made.
The `sleep(1000)` in the catch branch and the `rateLimitPause` are pure
delays with no state effect and are elided. -/
def processTarget (serverKey : String) (d : Defaults) (now : Int) (dryRun : Bool)
    (pub : PubOutcome) (resolver : Option Resolved) (st : SessState) (e : SubEntry) :
    SessState :=
  if 0 < targetWait now st e then
    { st with results := st.results ++ [.skip_cooldown e.subreddit
        (ceilHours (targetWait now st e))] }
  else if targetErrors d e ≠ [] then
    { st with results := st.results ++ [.invalid e.subreddit (targetErrors d e)] }
  else if dryRun then
    { st with results := st.results ++ [.dry_run_ok e.subreddit
        (mergeDefaults d (e.post.getD defaultPost))] }
  else
    match pub with
    | .thrown msg =>
        { st with results := st.results ++ [.error e.subreddit msg] }
    | .success data =>
        { st with
          cooldowns := cdSet st.cooldowns (entryKey e) now,
          posted :=
            (match (resolveIds data resolver).1 with
            | some i => st.posted ++
                [⟨i, e.subreddit, serverKey, now / 1000, .live, none⟩]
            | none => st.posted),
          results := st.results ++ [.posted e.subreddit
            (resolveIds data resolver).1 (resolveIds data resolver).2],
          postedCount := st.postedCount + 1 }

/-- The whole per-target loop, folding `processTarget` over the stored entry
list; the oracles are indexed by loop position. -/
def runTargets (serverKey : String) (d : Defaults) (now : Int) (dryRun : Bool)
    (pub : Nat → PubOutcome) (resolver : Nat → Option Resolved) :
    Nat → List SubEntry → SessState → SessState
  | _, [], st => st
  | i, e :: rest, st =>
      runTargets serverKey d now dryRun pub resolver (i + 1) rest
        (processTarget serverKey d now dryRun (pub i) (resolver i) st e)

/-! ## Schedules and the advertise endpoint -/

/-- A `schedules.json` entry.  `addSchedule` creates it without
`attemptCount`/`lastAttemptMs`/`lastError` (modelled `none`); the library
schedule runner fills them on a failed attempt. -/
structure Schedule where
  id : String
  serverKey : String
  whenMs : Int
  reason : String
  attemptCount : Option Int
  lastAttemptMs : Option Int
  lastError : Option String
  createdMs : Int
deriving Repr, DecidableEq

/-- 24 h server-level rolling throttle window, in ms. -/
def SERVER_ROLLING_WINDOW_MS : Int := 24 * 3600 * 1000

/-- Durable per-tenant state touched by the advertise endpoint. -/
structure ServerState where
  lastAdAt : Int
  subs : List SubEntry
  cooldowns : Cooldowns
  posted : List PostedRecord
  schedules : List Schedule
deriving Repr, DecidableEq

/-- The JSON body answered by the advertise endpoint. -/
inductive AdvResult where
  | throttled (throttleUntil : Int) (scheduled : Option Schedule)
  | ok (results : List Outcome)
deriving Repr, DecidableEq

def AdvResult.isOk : AdvResult → Bool
  | .ok _ => true
  | .throttled _ _ => false

/-- Output of one advertise session: the new durable state, the response, and
whether `getToken()` was invoked (`dryRun ? null : await getToken()`). -/
structure AdvOutput where
  state : ServerState
  result : AdvResult
  tokenFetched : Bool
deriving Repr, DecidableEq

/-- `POST /v1/advertise` (part_002 lines 97-243): throttle gate, then the
per-target loop, then the `lastAdAt` update.  `freshId` stands for the id
`addSchedule` would generate; `now` for the `Date.now()` readings of the
session.  The server-existence 404 and the best-effort end-of-session
notification (which does not affect state or response) are elided. -/
def advertise (defaults : Defaults) (freshId : String) (now : Int)
    (dryRun autoScheduleIfThrottled : Bool)
    (pub : Nat → PubOutcome) (resolver : Nat → Option Resolved)
    (serverKey : String) (st : ServerState) : AdvOutput :=
  if st.lastAdAt ≠ 0 ∧ now - st.lastAdAt < SERVER_ROLLING_WINDOW_MS then
    if autoScheduleIfThrottled then
      ⟨{ st with schedules := st.schedules ++
          [⟨freshId, serverKey, st.lastAdAt + SERVER_ROLLING_WINDOW_MS, "throttled",
            none, none, none, now⟩] },
       .throttled (st.lastAdAt + SERVER_ROLLING_WINDOW_MS)
         (some ⟨freshId, serverKey, st.lastAdAt + SERVER_ROLLING_WINDOW_MS, "throttled",
           none, none, none, now⟩),
       false⟩
    else
      ⟨st, .throttled (st.lastAdAt + SERVER_ROLLING_WINDOW_MS) none, false⟩
  else
    let fin := runTargets serverKey defaults now dryRun pub resolver 0 st.subs
      ⟨st.cooldowns, st.posted, [], 0⟩
    ⟨{ st with
        lastAdAt := if dryRun = false ∧ 0 < fin.postedCount then now else st.lastAdAt,
        cooldowns := fin.cooldowns,
        posted := fin.posted },
     .ok fin.results,
     !dryRun⟩

/-! ## Removal monitor -/

/-- `classifyRemoval` input/output (src/lib/reddit.js lines 172-182); the
argument is `thing.removed_by_category` with `""` for a falsy value. -/
structure RemovalClass where
  removed : Bool
  category : Option String
deriving Repr, DecidableEq

/-- `classifyRemoval` on the already-lowercased category string. -/
def classifyRemovalCat (cat : String) : RemovalClass :=
  if cat = "" then ⟨false, none⟩
  else if cat = "moderator" ∨ cat = "automod_filtered" ∨ cat = "content_takedown"
      ∨ cat = "copyright_takedown" ∨ cat = "legal" then ⟨true, some cat⟩
  else if cat = "deleted" then ⟨true, some "deleted"⟩
  else ⟨true, some cat⟩

def classifyRemoval (removed_by_category : String) : RemovalClass :=
  classifyRemovalCat (strToLower removed_by_category)

/-- Outcome of the `fetchSubmissionInfo` call for one record, were it made:
it threw (caught and logged), it answered `null`, or it answered a thing with
the given `removed_by_category`. -/
inductive FetchInfo where
  | thrownErr (message : String)
  | nullThing
  | found (removed_by_category : String)
deriving Repr, DecidableEq

/-- Effect of one removal-monitor iteration on one record: the (possibly
mutated) record, the categories of the `cryer.post.removed` notifications
emitted, and whether the remote `fetchSubmissionInfo` query was executed. -/
structure MonitorStep where
  record : PostedRecord
  notified : List String
  queried : Bool
deriving Repr, DecidableEq

def MONITOR_TTL_DAYS : Int := 7

/-- The `if (removed && category && category !== 'deleted')` step applied to a
fetched thing's classification (part_002 lines 266-275). -/
def monitorFound (now : Int) (r : PostedRecord) (cat0 : String) : MonitorStep :=
  match (classifyRemoval cat0).category with
  | some cat =>
      if (classifyRemoval cat0).removed = true ∧ cat ≠ "" ∧ cat ≠ "deleted" then
        ⟨{ r with status := .removed, removal := some ⟨cat, now⟩ }, [cat], true⟩
      else ⟨r, [], true⟩
  | none => ⟨r, [], true⟩

/-- Body of the per-record loop of `runRemovalMonitorOnce`
(part_002 lines 258-279). -/
def monitorRecord (now : Int) (info : FetchInfo) (r : PostedRecord) : MonitorStep :=
  if r.status ≠ .live then ⟨r, [], false⟩
  else if MONITOR_TTL_DAYS * 86400 < now - (if r.createdUtc = 0 then now else r.createdUtc) then
    ⟨{ r with status := .expired }, [], false⟩
  else if r.id = "" then ⟨{ r with status := .unknown }, [], false⟩
  else
    match info with
    | .thrownErr _ => ⟨r, [], true⟩
    | .nullThing => ⟨r, [], true⟩
    | .found cat0 => monitorFound now r cat0

/-! ## Schedule runtimes -/

/-- `removeSchedule` (src/lib/store.js lines 209-212). -/
def removeScheduleStore (store : List Schedule) (id : String) : List Schedule :=
  store.filter (fun s => s.id ≠ id)

/-- `updateSchedule` (src/lib/store.js lines 200-208): merge updates into the
first entry with the given id; a store without the id is unchanged. -/
def updateScheduleStore (store : List Schedule) (id : String)
    (upd : Schedule → Schedule) : List Schedule :=
  match store with
  | [] => []
  | s :: rest =>
      if s.id = id then upd s :: rest else s :: updateScheduleStore rest id upd

/-- Outcome of the advertise `fetch` made by a schedule runner: a response
object (or a nullish value), or a thrown network error. -/
structure RespObj where
  ok : Bool
  status : Option Int
deriving Repr, DecidableEq

inductive FetchOutcome where
  | response (r : Option RespObj)
  | thrownF (message : String)
deriving Repr, DecidableEq

/-- The retry update written by the library runner on a failed attempt. -/
def retryUpdate (retryDelayMs now : Int) (attempt : Int) (err : String)
    (s : Schedule) : Schedule :=
  { s with whenMs := now + retryDelayMs, attemptCount := some attempt,
           lastAttemptMs := some now, lastError := some err }

/-- Body of the loop in `createScheduleRunner`'s `runScheduleTick`
(part_001 lines 29-85): skip entries not yet due; on a 2xx (`response.ok`)
response remove the entry; on any other response or a thrown error postpone it
via `updateSchedule`. -/
def processScheduleLib (retryDelayMs now : Int) (fetched : FetchOutcome)
    (store : List Schedule) (sch : Schedule) : List Schedule :=
  if now < sch.whenMs then store
  else
    match fetched with
    | .response (some r) =>
        if r.ok then removeScheduleStore store sch.id
        else
          updateScheduleStore store sch.id
            (retryUpdate retryDelayMs now (sch.attemptCount.getD 0 + 1)
              (match r.status with
              | some st => "status " ++ toString st
              | none => "no response"))
    | .response none =>
        updateScheduleStore store sch.id
          (retryUpdate retryDelayMs now (sch.attemptCount.getD 0 + 1) "no response")
    | .thrownF msg =>
        updateScheduleStore store sch.id
          (retryUpdate retryDelayMs now (sch.attemptCount.getD 0 + 1) msg)

def runTickLibAux (retryDelayMs now : Int) (fetched : Nat → FetchOutcome) :
    Nat → List Schedule → List Schedule → List Schedule
  | _, [], store => store
  | i, sch :: rest, store =>
      runTickLibAux retryDelayMs now fetched (i + 1) rest
        (processScheduleLib retryDelayMs now (fetched i) store sch)

/-- The library schedule runner's whole tick: iterate over the snapshot of the
schedule list, threading the store. -/
def runScheduleTickLib (retryDelayMs now : Int) (fetched : Nat → FetchOutcome)
    (store : List Schedule) : List Schedule :=
  runTickLibAux retryDelayMs now fetched 0 store store

/-- Body of the loop in the server's own inline `runScheduleTick`
(part_002 lines 288-303): for a due entry the advertise call is made but its
response is never inspected, and `removeSchedule` runs in the `finally` block
on success, failure and thrown error alike. -/
def processScheduleServer (now : Int) (fetched : FetchOutcome)
    (store : List Schedule) (sch : Schedule) : List Schedule :=
  if sch.whenMs ≤ now then
    match fetched with
    | _ => removeScheduleStore store sch.id
  else store

def runTickServerAux (now : Int) (fetched : Nat → FetchOutcome) :
    Nat → List Schedule → List Schedule → List Schedule
  | _, [], store => store
  | i, sch :: rest, store =>
      runTickServerAux now fetched (i + 1) rest
        (processScheduleServer now (fetched i) store sch)

/-- The server's inline schedule tick over the snapshot of the list
(part_002 lines 285-304). -/
def runScheduleTickServer (now : Int) (fetched : Nat → FetchOutcome)
    (store : List Schedule) : List Schedule :=
  runTickServerAux now fetched 0 store store

/-! ## Branch equations for the per-target loop -/

theorem processTarget_skip (serverKey : String) (d : Defaults) (now : Int)
    (dryRun : Bool) (pub : PubOutcome) (resolver : Option Resolved)
    (st : SessState) (e : SubEntry) (h : 0 < targetWait now st e) :
    processTarget serverKey d now dryRun pub resolver st e =
      { st with results := st.results ++ [.skip_cooldown e.subreddit
          (ceilHours (targetWait now st e))] } := by
  unfold processTarget
  rw [if_pos h]

theorem processTarget_invalid (serverKey : String) (d : Defaults) (now : Int)
    (dryRun : Bool) (pub : PubOutcome) (resolver : Option Resolved)
    (st : SessState) (e : SubEntry) (h1 : ¬ 0 < targetWait now st e)
    (h2 : targetErrors d e ≠ []) :
    processTarget serverKey d now dryRun pub resolver st e =
      { st with results := st.results ++ [.invalid e.subreddit (targetErrors d e)] } := by
  unfold processTarget
  rw [if_neg h1, if_pos h2]

theorem processTarget_dry (serverKey : String) (d : Defaults) (now : Int)
    (pub : PubOutcome) (resolver : Option Resolved)
    (st : SessState) (e : SubEntry) (h1 : ¬ 0 < targetWait now st e)
    (h2 : targetErrors d e = []) :
    processTarget serverKey d now true pub resolver st e =
      { st with results := st.results ++ [.dry_run_ok e.subreddit
          (mergeDefaults d (e.post.getD defaultPost))] } := by
  unfold processTarget
  rw [if_neg h1, if_neg (fun hc => hc h2), if_pos rfl]

theorem processTarget_thrown (serverKey : String) (d : Defaults) (now : Int)
    (resolver : Option Resolved) (st : SessState) (e : SubEntry) (msg : String)
    (h1 : ¬ 0 < targetWait now st e) (h2 : targetErrors d e = []) :
    processTarget serverKey d now false (.thrown msg) resolver st e =
      { st with results := st.results ++ [.error e.subreddit msg] } := by
  unfold processTarget
  rw [if_neg h1, if_neg (fun hc => hc h2), if_neg Bool.false_ne_true]

theorem processTarget_success (serverKey : String) (d : Defaults) (now : Int)
    (resolver : Option Resolved) (st : SessState) (e : SubEntry) (data : SubmitData)
    (h1 : ¬ 0 < targetWait now st e) (h2 : targetErrors d e = []) :
    processTarget serverKey d now false (.success data) resolver st e =
      { st with
        cooldowns := cdSet st.cooldowns (entryKey e) now,
        posted :=
          (match (resolveIds data resolver).1 with
          | some i => st.posted ++
              [⟨i, e.subreddit, serverKey, now / 1000, .live, none⟩]
          | none => st.posted),
        results := st.results ++ [.posted e.subreddit
          (resolveIds data resolver).1 (resolveIds data resolver).2],
        postedCount := st.postedCount + 1 } := by
  unfold processTarget
  rw [if_neg h1, if_neg (fun hc => hc h2), if_neg Bool.false_ne_true]

/-- Every branch of the per-target loop appends exactly one outcome. -/
theorem processTarget_append (serverKey : String) (d : Defaults) (now : Int)
    (dryRun : Bool) (pub : PubOutcome) (resolver : Option Resolved)
    (st : SessState) (e : SubEntry) :
    ∃ o, (processTarget serverKey d now dryRun pub resolver st e).results
      = st.results ++ [o] := by
  unfold processTarget
  split
  · exact ⟨_, rfl⟩
  · split
    · exact ⟨_, rfl⟩
    · split
      · exact ⟨_, rfl⟩
      · cases pub with
        | thrown msg => exact ⟨_, rfl⟩
        | success data => exact ⟨_, rfl⟩

theorem runTargets_length (serverKey : String) (d : Defaults) (now : Int)
    (dryRun : Bool) (pub : Nat → PubOutcome) (resolver : Nat → Option Resolved)
    (subs : List SubEntry) :
    ∀ (i : Nat) (st : SessState),
      (runTargets serverKey d now dryRun pub resolver i subs st).results.length
        = st.results.length + subs.length := by
  induction subs with
  | nil =>
      intro i st
      rfl
  | cons e rest ih =>
      intro i st
      rw [runTargets, ih]
      obtain ⟨o, ho⟩ := processTarget_append serverKey d now dryRun (pub i)
        (resolver i) st e
      rw [ho]
      simp only [List.length_append, List.length_cons, List.length_nil]
      omega

/-- Claim C3: for every target processed in an eligible session, with
`cadenceDays = d` (defaulting to 1 when unset or non-finite) and last
recorded success `S` from the cooldown map (0 when absent), the target is
skipped with a `skip_cooldown` outcome — carrying the remaining wait rounded
up to whole hours — if and only if `now - S < d × 86,400,000` ms; nothing
else of the session state changes on a skip. -/
theorem c3_cooldown_gate (serverKey : String) (d : Defaults) (now : Int)
    (dryRun : Bool) (pub : PubOutcome) (resolver : Option Resolved)
    (st : SessState) (e : SubEntry) :
    processTarget serverKey d now dryRun pub resolver st e =
      { st with results := st.results ++ [.skip_cooldown e.subreddit
          (ceilHours (targetWait now st e))] }
    ↔ now - cdGet st.cooldowns (entryKey e) < e.rules.cooldownDays.getD 1 * 86400000 := by
  constructor
  · intro h
    by_contra hc
    have hw : ¬ 0 < targetWait now st e := by
      unfold targetWait
      omega
    have hres2 := congrArg SessState.results h
    have hmm : ∀ o : Outcome,
        (processTarget serverKey d now dryRun pub resolver st e).results
          = st.results ++ [o] →
        o = Outcome.skip_cooldown e.subreddit (ceilHours (targetWait now st e)) := by
      intro o hres
      rw [hres] at hres2
      exact ((List.cons.injEq _ _ _ _).mp (List.append_cancel_left hres2)).1
    by_cases h2 : targetErrors d e ≠ []
    · exact Outcome.noConfusion (hmm _
        (by rw [processTarget_invalid serverKey d now dryRun pub resolver st e hw h2]))
    · have h2' : targetErrors d e = [] := not_not.mp h2
      cases dryRun with
      | true =>
          exact Outcome.noConfusion (hmm _
            (by rw [processTarget_dry serverKey d now pub resolver st e hw h2']))
      | false =>
          cases pub with
          | thrown msg =>
              exact Outcome.noConfusion (hmm _
                (by rw [processTarget_thrown serverKey d now resolver st e msg hw h2']))
          | success data =>
              exact Outcome.noConfusion (hmm _
                (by rw [processTarget_success serverKey d now resolver st e data hw h2']))
  · intro h
    apply processTarget_skip
    unfold targetWait
    omega

/-- Witness for C3 at a concrete input: one target with cadence 1 day, last
success at 0, current time 1000 ms, so the remaining 86,399,000 ms wait rounds
up to 24 hours. -/
theorem c3_cooldown_gate_witness :
    processTarget "srv" ⟨"", "", ""⟩ 1000 false (.thrown "x") none
        ⟨[("r", 0)], [], [], 0⟩ ⟨"r", "r", ⟨some 1, some false⟩, some ⟨"self", "t", "b", "", "", ""⟩⟩ =
      { cooldowns := [("r", 0)], posted := [],
        results := [.skip_cooldown "r"
          (ceilHours (targetWait 1000 ⟨[("r", 0)], [], [], 0⟩
            ⟨"r", "r", ⟨some 1, some false⟩, some ⟨"self", "t", "b", "", "", ""⟩⟩))],
        postedCount := 0 } :=
  (c3_cooldown_gate "srv" ⟨"", "", ""⟩ 1000 false (.thrown "x") none
    ⟨[("r", 0)], [], [], 0⟩
    ⟨"r", "r", ⟨some 1, some false⟩, some ⟨"self", "t", "b", "", "", ""⟩⟩).mpr (by decide)

/-- Claim C5: a per-target failure never aborts the session.  First conjunct:
the loop records exactly one outcome per stored target, whatever the publish
outcomes are — so every subsequent target is still processed.  Second: a
thrown publish call records outcome `error` with the failure message and
changes nothing else.  Third: likewise a validation failure records `invalid`
with the violated rules and the session continues. -/
theorem c5_session_non_starvation (serverKey : String) (d : Defaults) (now : Int)
    (dryRun : Bool) (pub : Nat → PubOutcome) (resolver : Nat → Option Resolved)
    (subs : List SubEntry) (i : Nat) (st : SessState)
    (pub1 : PubOutcome) (resolver1 : Option Resolved) (st1 : SessState)
    (e : SubEntry) (msg : String) :
    ((runTargets serverKey d now dryRun pub resolver i subs st).results.length
        = st.results.length + subs.length)
    ∧ (¬ 0 < targetWait now st1 e → targetErrors d e = [] →
        processTarget serverKey d now false (.thrown msg) resolver1 st1 e
          = { st1 with results := st1.results ++ [.error e.subreddit msg] })
    ∧ (¬ 0 < targetWait now st1 e → targetErrors d e ≠ [] →
        processTarget serverKey d now dryRun pub1 resolver1 st1 e
          = { st1 with results := st1.results ++ [.invalid e.subreddit (targetErrors d e)] }) := by
  refine ⟨runTargets_length serverKey d now dryRun pub resolver subs i st, ?_, ?_⟩
  · intro h1 h2
    exact processTarget_thrown serverKey d now resolver1 st1 e msg h1 h2
  · intro h1 h2
    exact processTarget_invalid serverKey d now dryRun pub1 resolver1 st1 e h1 h2

/-- Witness for C5 at a concrete input: a two-target session whose first
publish throws still records two outcomes, and the thrown publish records
`error "boom"`. -/
theorem c5_session_non_starvation_witness :
    ((runTargets "srv" ⟨"", "", ""⟩ 86400000 false (fun _ => .thrown "boom") (fun _ => none) 0
        [⟨"r", "r", ⟨some 1, some false⟩, some ⟨"self", "t", "b", "", "", ""⟩⟩,
         ⟨"q", "q", ⟨some 1, some false⟩, some ⟨"self", "t", "b", "", "", ""⟩⟩]
        ⟨[], [], [], 0⟩).results.length = ([] : List Outcome).length + 2)
    ∧ processTarget "srv" ⟨"", "", ""⟩ 86400000 false (.thrown "boom") none
        ⟨[], [], [], 0⟩ ⟨"r", "r", ⟨some 1, some false⟩, some ⟨"self", "t", "b", "", "", ""⟩⟩
      = { cooldowns := [], posted := [], results := [.error "r" "boom"], postedCount := 0 } := by
  have h := c5_session_non_starvation "srv" ⟨"", "", ""⟩ 86400000 false
    (fun _ => .thrown "boom") (fun _ => none)
    [⟨"r", "r", ⟨some 1, some false⟩, some ⟨"self", "t", "b", "", "", ""⟩⟩,
     ⟨"q", "q", ⟨some 1, some false⟩, some ⟨"self", "t", "b", "", "", ""⟩⟩]
    0 ⟨[], [], [], 0⟩ (.thrown "boom") none ⟨[], [], [], 0⟩
    ⟨"r", "r", ⟨some 1, some false⟩, some ⟨"self", "t", "b", "", "", ""⟩⟩ "boom"
  exact ⟨h.1, h.2.1 (by decide) (by decide)⟩

/-- A schedule entry due for a long time, used to exercise the two schedule
runtimes. -/
def dueSchedule : Schedule := ⟨"s1", "alpha", 500, "manual", none, none, none, 100⟩

/-- Claim C1 names the retry contract of the Schedule Runtime: a due entry
whose advertise call fails (here HTTP 503 at `now = 1000`, retry delay
300,000 ms) must not be deleted but updated in place.  The server process's
own inline `runScheduleTick` (part_002) deletes the entry unconditionally in
its `finally` block — the schedule list becomes empty — while the library
runner `createScheduleRunner` (part_001), the one exercised by
`scheduler.test.js`, keeps the entry with `attemptCount = 1`,
`lastAttemptMs = now`, `whenMs = now + retryDelayMs` and
`lastError = "status 503"`, exactly as the claim states. -/
theorem c1_server_tick_drops_failed_schedule :
    runScheduleTickServer 1000 (fun _ => .response (some ⟨false, some 503⟩)) [dueSchedule]
      = []
    ∧ runScheduleTickLib 300000 1000 (fun _ => .response (some ⟨false, some 503⟩)) [dueSchedule]
      = [{ dueSchedule with whenMs := 301000, attemptCount := some 1,
                            lastAttemptMs := some 1000, lastError := some "status 503" }] := by
  constructor
  · rfl
  · rfl

/-- Claim C4 as stated is false: a publish that succeeds but whose response
carries no id/name/url, with the recent-submission fallback finding nothing,
updates the cooldown and records outcome `posted` — yet appends no
PostedRecord at all (`if (id)` guards the append, part_002 line 206). -/
theorem c4_counterexample :
    processTarget "srv" ⟨"", "", ""⟩ 86400000 false (.success ⟨none, none, none⟩) none
        ⟨[], [], [], 0⟩ ⟨"r", "r", ⟨some 1, some false⟩, some ⟨"self", "t", "b", "", "", ""⟩⟩ =
      { cooldowns := [("r", 86400000)], posted := [],
        results := [.posted "r" none none], postedCount := 1 } := by
  rfl

/-- Claim C4, amended: in a non-dry session, a successful publish sets the
tenant's cooldown entry for the target to the current time and — provided an
external id was resolved from the response or the recent-submission fallback —
appends a PostedRecord with status `live`; and the cooldown map or posted list
changes only when a publish for that target succeeded (skips, validation
failures and thrown publishes leave both unchanged). -/
theorem c4_cooldown_iff_success (serverKey : String) (d : Defaults) (now : Int)
    (dryRun : Bool) (pub : PubOutcome) (resolver : Option Resolved)
    (st : SessState) (e : SubEntry) :
    (∀ data, pub = .success data → ¬ 0 < targetWait now st e → targetErrors d e = [] →
      dryRun = false →
      (processTarget serverKey d now dryRun pub resolver st e).cooldowns
          = cdSet st.cooldowns (entryKey e) now
      ∧ (processTarget serverKey d now dryRun pub resolver st e).posted
          = (match (resolveIds data resolver).1 with
            | some i => st.posted ++
                [⟨i, e.subreddit, serverKey, now / 1000, .live, none⟩]
            | none => st.posted))
    ∧ ((processTarget serverKey d now dryRun pub resolver st e).cooldowns ≠ st.cooldowns
        ∨ (processTarget serverKey d now dryRun pub resolver st e).posted ≠ st.posted →
      ∃ data, pub = .success data ∧ ¬ 0 < targetWait now st e ∧ targetErrors d e = []
        ∧ dryRun = false) := by
  constructor
  · intro data hpub hw herr hdry
    subst hpub
    subst hdry
    rw [processTarget_success serverKey d now resolver st e data hw herr]
    exact ⟨rfl, rfl⟩
  · intro hchanged
    by_cases hw : 0 < targetWait now st e
    · rw [processTarget_skip serverKey d now dryRun pub resolver st e hw] at hchanged
      rcases hchanged with hch | hch <;> exact absurd rfl hch
    · by_cases herr : targetErrors d e ≠ []
      · rw [processTarget_invalid serverKey d now dryRun pub resolver st e hw herr]
          at hchanged
        rcases hchanged with hch | hch <;> exact absurd rfl hch
      · have herr' : targetErrors d e = [] := not_not.mp herr
        cases dryRun with
        | true =>
            rw [processTarget_dry serverKey d now pub resolver st e hw herr'] at hchanged
            rcases hchanged with hch | hch <;> exact absurd rfl hch
        | false =>
            cases pub with
            | thrown msg =>
                rw [processTarget_thrown serverKey d now resolver st e msg hw herr']
                  at hchanged
                rcases hchanged with hch | hch <;> exact absurd rfl hch
            | success data =>
                exact ⟨data, rfl, hw, herr', rfl⟩

/-- Witness for the amended C4: a successful publish whose response carries an
id appends exactly the live PostedRecord and stamps the cooldown with the
current time. -/
theorem c4_cooldown_iff_success_witness :
    (processTarget "srv" ⟨"", "", ""⟩ 86400000 false
        (.success ⟨some "abc", none, some "u"⟩) none ⟨[], [], [], 0⟩
        ⟨"r", "r", ⟨some 1, some false⟩, some ⟨"self", "t", "b", "", "", ""⟩⟩).cooldowns
      = cdSet [] (entryKey ⟨"r", "r", ⟨some 1, some false⟩, some ⟨"self", "t", "b", "", "", ""⟩⟩) 86400000
    ∧ (processTarget "srv" ⟨"", "", ""⟩ 86400000 false
        (.success ⟨some "abc", none, some "u"⟩) none ⟨[], [], [], 0⟩
        ⟨"r", "r", ⟨some 1, some false⟩, some ⟨"self", "t", "b", "", "", ""⟩⟩).posted
      = (match (resolveIds ⟨some "abc", none, some "u"⟩ none).1 with
        | some i => ([] : List PostedRecord) ++ [⟨i, "r", "srv", 86400000 / 1000, .live, none⟩]
        | none => ([] : List PostedRecord)) :=
  (c4_cooldown_iff_success "srv" ⟨"", "", ""⟩ 86400000 false
    (.success ⟨some "abc", none, some "u"⟩) none ⟨[], [], [], 0⟩
    ⟨"r", "r", ⟨some 1, some false⟩, some ⟨"self", "t", "b", "", "", ""⟩⟩).1
    ⟨some "abc", none, some "u"⟩ rfl (by decide) (by decide) rfl

/-! ## Throttle gate (C2) -/

theorem window_ms_eq : SERVER_ROLLING_WINDOW_MS = 86400000 := by decide

theorem advertise_throttled (defaults : Defaults) (freshId : String) (now : Int)
    (dryRun auto : Bool) (pub : Nat → PubOutcome) (resolver : Nat → Option Resolved)
    (sk : String) (st : ServerState)
    (h : st.lastAdAt ≠ 0 ∧ now - st.lastAdAt < SERVER_ROLLING_WINDOW_MS) :
    advertise defaults freshId now dryRun auto pub resolver sk st =
      ⟨{ st with schedules := st.schedules ++
          (if auto then
            [⟨freshId, sk, st.lastAdAt + SERVER_ROLLING_WINDOW_MS, "throttled",
              none, none, none, now⟩]
          else []) },
       .throttled (st.lastAdAt + SERVER_ROLLING_WINDOW_MS)
         (if auto then
           some ⟨freshId, sk, st.lastAdAt + SERVER_ROLLING_WINDOW_MS, "throttled",
             none, none, none, now⟩
         else none),
       false⟩ := by
  unfold advertise
  rw [if_pos h]
  cases auto with
  | false => simp
  | true => simp

theorem advertise_eligible (defaults : Defaults) (freshId : String) (now : Int)
    (dryRun auto : Bool) (pub : Nat → PubOutcome) (resolver : Nat → Option Resolved)
    (sk : String) (st : ServerState)
    (h : ¬ (st.lastAdAt ≠ 0 ∧ now - st.lastAdAt < SERVER_ROLLING_WINDOW_MS)) :
    advertise defaults freshId now dryRun auto pub resolver sk st =
      ⟨{ st with
          lastAdAt := if dryRun = false ∧
              0 < (runTargets sk defaults now dryRun pub resolver 0 st.subs
                ⟨st.cooldowns, st.posted, [], 0⟩).postedCount then now else st.lastAdAt,
          cooldowns := (runTargets sk defaults now dryRun pub resolver 0 st.subs
            ⟨st.cooldowns, st.posted, [], 0⟩).cooldowns,
          posted := (runTargets sk defaults now dryRun pub resolver 0 st.subs
            ⟨st.cooldowns, st.posted, [], 0⟩).posted },
       .ok (runTargets sk defaults now dryRun pub resolver 0 st.subs
         ⟨st.cooldowns, st.posted, [], 0⟩).results,
       !dryRun⟩ := by
  unfold advertise
  rw [if_neg h]

/-- Claim C2: with `lastPublishAt = L` and current time `N`, a session is
eligible iff `L = 0 ∨ N - L ≥ 86,400,000`; otherwise it answers
`status = throttled` with `throttleUntil = L + 86,400,000`, performs no
per-target processing (cooldowns, posted records and `lastAdAt` untouched,
no token fetched), and appends exactly one new Schedule with reason
`"throttled"` and `whenMs = throttleUntil` iff `autoScheduleIfThrottled` was
requested. -/
theorem c2_throttle_gate (defaults : Defaults) (freshId : String) (now : Int)
    (dryRun auto : Bool) (pub : Nat → PubOutcome) (resolver : Nat → Option Resolved)
    (sk : String) (st : ServerState) :
    ((advertise defaults freshId now dryRun auto pub resolver sk st).result.isOk = true
      ↔ (st.lastAdAt = 0 ∨ 86400000 ≤ now - st.lastAdAt))
    ∧ (st.lastAdAt ≠ 0 → now - st.lastAdAt < 86400000 →
        advertise defaults freshId now dryRun auto pub resolver sk st =
          ⟨{ st with schedules := st.schedules ++
              (if auto then
                [⟨freshId, sk, st.lastAdAt + 86400000, "throttled", none, none, none, now⟩]
              else []) },
           .throttled (st.lastAdAt + 86400000)
             (if auto then
               some ⟨freshId, sk, st.lastAdAt + 86400000, "throttled", none, none, none, now⟩
             else none),
           false⟩) := by
  constructor
  · by_cases h : st.lastAdAt ≠ 0 ∧ now - st.lastAdAt < SERVER_ROLLING_WINDOW_MS
    · rw [advertise_throttled defaults freshId now dryRun auto pub resolver sk st h]
      have h' := h
      rw [window_ms_eq] at h'
      simp only [AdvResult.isOk]
      constructor
      · intro hx
        exact absurd hx (by decide)
      · intro hx
        rcases hx with hx | hx
        · exact absurd hx h'.1
        · omega
    · rw [advertise_eligible defaults freshId now dryRun auto pub resolver sk st h]
      have h' := h
      rw [window_ms_eq] at h'
      simp only [AdvResult.isOk]
      constructor
      · intro _
        by_cases hz : st.lastAdAt = 0
        · exact Or.inl hz
        · refine Or.inr ?_
          by_contra hlt
          exact h' ⟨hz, by omega⟩
      · intro _
        trivial
  · intro h1 h2
    rw [advertise_throttled defaults freshId now dryRun auto pub resolver sk st
        ⟨h1, by rw [window_ms_eq]; exact h2⟩]
    rw [window_ms_eq]

/-- Witness for C2 at a concrete input: tenant last published at 900 ms,
session at 1000 ms with auto-scheduling requested → throttled until
86,400,900 ms with exactly one `"throttled"` schedule created. -/
theorem c2_throttle_gate_witness :
    advertise ⟨"", "", ""⟩ "id9" 1000 false true (fun _ => .thrown "x") (fun _ => none)
        "srv" ⟨900, [], [], [], []⟩ =
      ⟨⟨900, [], [], [], [⟨"id9", "srv", 86400900, "throttled", none, none, none, 1000⟩]⟩,
       .throttled 86400900
         (some ⟨"id9", "srv", 86400900, "throttled", none, none, none, 1000⟩),
       false⟩ :=
  (c2_throttle_gate ⟨"", "", ""⟩ "id9" 1000 false true (fun _ => .thrown "x")
    (fun _ => none) "srv" ⟨900, [], [], [], []⟩).2 (by decide) (by decide)

/-! ## Dry-run frame (C6) -/

theorem processTarget_dry_parts (serverKey : String) (d : Defaults) (now : Int)
    (pub : PubOutcome) (resolver : Option Resolved) (st : SessState) (e : SubEntry) :
    (processTarget serverKey d now true pub resolver st e).cooldowns = st.cooldowns
    ∧ (processTarget serverKey d now true pub resolver st e).posted = st.posted
    ∧ (processTarget serverKey d now true pub resolver st e).postedCount
        = st.postedCount := by
  by_cases hw : 0 < targetWait now st e
  · rw [processTarget_skip serverKey d now true pub resolver st e hw]
    exact ⟨rfl, rfl, rfl⟩
  · by_cases herr : targetErrors d e ≠ []
    · rw [processTarget_invalid serverKey d now true pub resolver st e hw herr]
      exact ⟨rfl, rfl, rfl⟩
    · rw [processTarget_dry serverKey d now pub resolver st e hw (not_not.mp herr)]
      exact ⟨rfl, rfl, rfl⟩

theorem processTarget_dry_oracle (serverKey : String) (d : Defaults) (now : Int)
    (pub pub' : PubOutcome) (resolver resolver' : Option Resolved)
    (st : SessState) (e : SubEntry) :
    processTarget serverKey d now true pub resolver st e
      = processTarget serverKey d now true pub' resolver' st e := by
  by_cases hw : 0 < targetWait now st e
  · rw [processTarget_skip serverKey d now true pub resolver st e hw,
        processTarget_skip serverKey d now true pub' resolver' st e hw]
  · by_cases herr : targetErrors d e ≠ []
    · rw [processTarget_invalid serverKey d now true pub resolver st e hw herr,
          processTarget_invalid serverKey d now true pub' resolver' st e hw herr]
    · rw [processTarget_dry serverKey d now pub resolver st e hw (not_not.mp herr),
          processTarget_dry serverKey d now pub' resolver' st e hw (not_not.mp herr)]

theorem runTargets_dry_parts (serverKey : String) (d : Defaults) (now : Int)
    (pub : Nat → PubOutcome) (resolver : Nat → Option Resolved)
    (subs : List SubEntry) :
    ∀ (i : Nat) (st : SessState),
      (runTargets serverKey d now true pub resolver i subs st).cooldowns = st.cooldowns
      ∧ (runTargets serverKey d now true pub resolver i subs st).posted = st.posted
      ∧ (runTargets serverKey d now true pub resolver i subs st).postedCount
          = st.postedCount := by
  induction subs with
  | nil =>
      intro i st
      exact ⟨rfl, rfl, rfl⟩
  | cons e rest ih =>
      intro i st
      rw [runTargets]
      obtain ⟨hc, hp, hn⟩ := ih (i + 1)
        (processTarget serverKey d now true (pub i) (resolver i) st e)
      obtain ⟨hc', hp', hn'⟩ :=
        processTarget_dry_parts serverKey d now (pub i) (resolver i) st e
      exact ⟨hc.trans hc', hp.trans hp', hn.trans hn'⟩

theorem runTargets_dry_oracle (serverKey : String) (d : Defaults) (now : Int)
    (pub pub' : Nat → PubOutcome) (resolver resolver' : Nat → Option Resolved)
    (subs : List SubEntry) :
    ∀ (i : Nat) (st : SessState),
      runTargets serverKey d now true pub resolver i subs st
        = runTargets serverKey d now true pub' resolver' i subs st := by
  induction subs with
  | nil =>
      intro i st
      rfl
  | cons e rest ih =>
      intro i st
      rw [runTargets, runTargets,
          processTarget_dry_oracle serverKey d now (pub i) (pub' i) (resolver i)
            (resolver' i) st e,
          ih]

/-- Claim C6: a dry-run session fetches no credential, leaves the cooldown
map, the posted list and `lastAdAt` (= `lastPublishAt`) unchanged, and its
entire result is independent of the publish/lookup oracles (no publish call is
consulted); and each eligible, valid target of a dry run records outcome
`dry_run_ok` carrying the fully merged content. -/
theorem c6_dry_run_frame (defaults : Defaults) (freshId : String) (now : Int)
    (auto : Bool) (pub pub' : Nat → PubOutcome)
    (resolver resolver' : Nat → Option Resolved) (sk : String) (st : ServerState)
    (pub1 : PubOutcome) (resolver1 : Option Resolved) (st1 : SessState)
    (e : SubEntry) :
    ((advertise defaults freshId now true auto pub resolver sk st).tokenFetched = false
     ∧ (advertise defaults freshId now true auto pub resolver sk st).state.lastAdAt
         = st.lastAdAt
     ∧ (advertise defaults freshId now true auto pub resolver sk st).state.cooldowns
         = st.cooldowns
     ∧ (advertise defaults freshId now true auto pub resolver sk st).state.posted
         = st.posted
     ∧ advertise defaults freshId now true auto pub resolver sk st
         = advertise defaults freshId now true auto pub' resolver' sk st)
    ∧ (¬ 0 < targetWait now st1 e → targetErrors defaults e = [] →
        processTarget sk defaults now true pub1 resolver1 st1 e
          = { st1 with results := st1.results ++ [.dry_run_ok e.subreddit
              (mergeDefaults defaults (e.post.getD defaultPost))] }) := by
  constructor
  · by_cases h : st.lastAdAt ≠ 0 ∧ now - st.lastAdAt < SERVER_ROLLING_WINDOW_MS
    · rw [advertise_throttled defaults freshId now true auto pub resolver sk st h,
          advertise_throttled defaults freshId now true auto pub' resolver' sk st h]
      exact ⟨rfl, rfl, rfl, rfl, rfl⟩
    · rw [advertise_eligible defaults freshId now true auto pub resolver sk st h,
          advertise_eligible defaults freshId now true auto pub' resolver' sk st h,
          runTargets_dry_oracle sk defaults now pub pub' resolver resolver' st.subs 0
            ⟨st.cooldowns, st.posted, [], 0⟩]
      obtain ⟨hc, hp, _⟩ := runTargets_dry_parts sk defaults now pub' resolver' st.subs 0
        ⟨st.cooldowns, st.posted, [], 0⟩
      refine ⟨rfl, ?_, hc, hp, rfl⟩
      split
      · next hcond => exact absurd hcond.1 (by decide)
      · rfl
  · intro h1 h2
    exact processTarget_dry sk defaults now pub1 resolver1 st1 e h1 h2

/-- Witness for C6 at a concrete input: an eligible dry run over no targets
with two different oracles, and one eligible valid target yielding
`dry_run_ok` with the merged content. -/
theorem c6_dry_run_frame_witness :
    ((advertise ⟨"", "", ""⟩ "f" 86400000 true true (fun _ => .thrown "a") (fun _ => none)
        "srv" ⟨0, [], [], [], []⟩).tokenFetched = false
     ∧ (advertise ⟨"", "", ""⟩ "f" 86400000 true true (fun _ => .thrown "a") (fun _ => none)
        "srv" ⟨0, [], [], [], []⟩).state.lastAdAt = (0 : Int)
     ∧ (advertise ⟨"", "", ""⟩ "f" 86400000 true true (fun _ => .thrown "a") (fun _ => none)
        "srv" ⟨0, [], [], [], []⟩).state.cooldowns = ([] : Cooldowns)
     ∧ (advertise ⟨"", "", ""⟩ "f" 86400000 true true (fun _ => .thrown "a") (fun _ => none)
        "srv" ⟨0, [], [], [], []⟩).state.posted = ([] : List PostedRecord)
     ∧ advertise ⟨"", "", ""⟩ "f" 86400000 true true (fun _ => .thrown "a") (fun _ => none)
        "srv" ⟨0, [], [], [], []⟩
       = advertise ⟨"", "", ""⟩ "f" 86400000 true true (fun _ => .thrown "b") (fun _ => none)
        "srv" ⟨0, [], [], [], []⟩)
    ∧ processTarget "srv" ⟨"", "", ""⟩ 86400000 true (.thrown "x") none ⟨[], [], [], 0⟩
        ⟨"r", "r", ⟨some 1, some false⟩, some ⟨"self", "t", "b", "", "", ""⟩⟩
      = { cooldowns := [], posted := [],
          results := [.dry_run_ok "r" (mergeDefaults ⟨"", "", ""⟩
            ((some (⟨"self", "t", "b", "", "", ""⟩ : Post)).getD defaultPost))],
          postedCount := 0 } := by
  have h := c6_dry_run_frame ⟨"", "", ""⟩ "f" 86400000 true
    (fun _ => .thrown "a") (fun _ => .thrown "b") (fun _ => none) (fun _ => none)
    "srv" ⟨0, [], [], [], []⟩ (.thrown "x") none ⟨[], [], [], 0⟩
    ⟨"r", "r", ⟨some 1, some false⟩, some ⟨"self", "t", "b", "", "", ""⟩⟩
  exact ⟨h.1, h.2 (by decide) (by decide)⟩

/-! ## Removal monitor (C7, C8, C9) -/

theorem monitorRecord_not_live (now : Int) (info : FetchInfo) (r : PostedRecord)
    (h : r.status ≠ .live) : monitorRecord now info r = ⟨r, [], false⟩ := by
  unfold monitorRecord
  rw [if_pos h]

/-- Claim C7: on a Removal Monitor tick, every `live` record whose age since
creation exceeds the 7-day TTL transitions to `expired`; the result holds for
every possible outcome of the remote query and reports `queried = false` — no
remote Platform Client call is made for the record. -/
theorem c7_ttl_expiry (now : Int) (info : FetchInfo) (r : PostedRecord)
    (h1 : r.status = .live) (h2 : r.createdUtc ≠ 0)
    (h3 : 7 * 86400 < now - r.createdUtc) :
    monitorRecord now info r = ⟨{ r with status := .expired }, [], false⟩ := by
  unfold monitorRecord
  rw [if_neg (fun hc => hc h1), if_neg h2,
      show (MONITOR_TTL_DAYS : Int) = 7 from rfl, if_pos h3]

/-- Witness for C7: a live record created at epoch second 100, checked just
past the TTL, expires without a query, whatever the query would have said. -/
theorem c7_ttl_expiry_witness :
    monitorRecord (7 * 86400 + 200) (.found "moderator") ⟨"abc", "r", "srv", 100, .live, none⟩
      = ⟨{ (⟨"abc", "r", "srv", 100, .live, none⟩ : PostedRecord) with status := .expired },
         [], false⟩ :=
  c7_ttl_expiry (7 * 86400 + 200) (.found "moderator") ⟨"abc", "r", "srv", 100, .live, none⟩
    (by decide) (by decide) (by decide)

theorem classify_category_ne_empty (c cat : String)
    (h : (classifyRemoval c).category = some cat) : cat ≠ "" := by
  intro he
  subst he
  unfold classifyRemoval classifyRemovalCat at h
  split_ifs at h with h1 h2 h3 <;> simp_all

/-- Claim C8: when the monitor's platform query reports a removal whose
category classifies as the author's own deletion (`"deleted"`), the record
stays exactly as it was — status still `live`, no removal stamp — and no
notification is emitted; and any reported removal with a category other than
`"deleted"` transitions the record to `removed` with
`removal{category, checkedAt}` and a notification. -/
theorem monitorRecord_found (now : Int) (r : PostedRecord) (cat0 : String)
    (h1 : r.status = .live)
    (h2 : ¬ MONITOR_TTL_DAYS * 86400 < now - (if r.createdUtc = 0 then now else r.createdUtc))
    (h3 : r.id ≠ "") :
    monitorRecord now (.found cat0) r = monitorFound now r cat0 := by
  unfold monitorRecord
  rw [if_neg (fun hc => hc h1), if_neg h2, if_neg h3]

theorem c8_self_deletion_stays_live (now : Int) (r : PostedRecord) (cat0 : String)
    (h1 : r.status = .live)
    (h2 : ¬ MONITOR_TTL_DAYS * 86400 < now - (if r.createdUtc = 0 then now else r.createdUtc))
    (h3 : r.id ≠ "") :
    (strToLower cat0 = "deleted" → monitorRecord now (.found cat0) r = ⟨r, [], true⟩)
    ∧ (∀ cat, (classifyRemoval cat0).removed = true →
        (classifyRemoval cat0).category = some cat → cat ≠ "deleted" →
        monitorRecord now (.found cat0) r
          = ⟨{ r with status := .removed, removal := some ⟨cat, now⟩ }, [cat], true⟩) := by
  rw [monitorRecord_found now r cat0 h1 h2 h3]
  constructor
  · intro hdel
    have hclass : classifyRemoval cat0 = ⟨true, some "deleted"⟩ := by
      unfold classifyRemoval
      rw [hdel]
      decide
    unfold monitorFound
    rw [hclass]
    exact if_neg (fun hc => hc.2.2 rfl)
  · intro cat hrem hcat hne
    have hne' : cat ≠ "" := classify_category_ne_empty cat0 cat hcat
    unfold monitorFound
    rw [hcat]
    exact if_pos ⟨hrem, hne', hne⟩

/-- Witness for C8: a mixed-case author deletion leaves the record untouched
and silent; a moderator removal stamps and notifies. -/
theorem c8_self_deletion_stays_live_witness :
    (monitorRecord 200 (.found "DeLeTeD") ⟨"abc", "r", "srv", 100, .live, none⟩
      = ⟨⟨"abc", "r", "srv", 100, .live, none⟩, [], true⟩)
    ∧ (monitorRecord 200 (.found "moderator") ⟨"abc", "r", "srv", 100, .live, none⟩
      = ⟨{ (⟨"abc", "r", "srv", 100, .live, none⟩ : PostedRecord) with
            status := .removed, removal := some ⟨"moderator", 200⟩ },
         ["moderator"], true⟩) :=
  ⟨(c8_self_deletion_stays_live 200 ⟨"abc", "r", "srv", 100, .live, none⟩ "DeLeTeD"
      (by decide) (by decide) (by decide)).1 (by decide),
   (c8_self_deletion_stays_live 200 ⟨"abc", "r", "srv", 100, .live, none⟩ "moderator"
      (by decide) (by decide) (by decide)).2 "moderator" (by decide) (by decide) (by decide)⟩

/-- Claim C9: PostedRecord status is monotone.  A monitor iteration leaves any
record whose status is not `live` untouched (no query, no notification); if
the result of an iteration is `live` then the input already was (status never
returns to `live`); and every record the session loop appends is created with
status `live`. -/
theorem c9_lifecycle_monotone (now : Int) (info : FetchInfo) (r : PostedRecord)
    (serverKey : String) (d : Defaults) (dryRun : Bool) (pub : PubOutcome)
    (resolver : Option Resolved) (st : SessState) (e : SubEntry)
    (rec : PostedRecord) :
    (r.status ≠ .live → monitorRecord now info r = ⟨r, [], false⟩)
    ∧ ((monitorRecord now info r).record.status = .live → r.status = .live)
    ∧ (rec ∈ (processTarget serverKey d now dryRun pub resolver st e).posted →
        rec ∈ st.posted ∨ rec.status = .live) := by
  refine ⟨monitorRecord_not_live now info r, ?_, ?_⟩
  · intro hc
    by_cases hl : r.status = .live
    · exact hl
    · rw [monitorRecord_not_live now info r hl] at hc
      exact absurd hc hl
  · intro hmem
    by_cases hw : 0 < targetWait now st e
    · rw [processTarget_skip serverKey d now dryRun pub resolver st e hw] at hmem
      exact Or.inl hmem
    · by_cases herr : targetErrors d e ≠ []
      · rw [processTarget_invalid serverKey d now dryRun pub resolver st e hw herr]
          at hmem
        exact Or.inl hmem
      · have herr' : targetErrors d e = [] := not_not.mp herr
        cases dryRun with
        | true =>
            rw [processTarget_dry serverKey d now pub resolver st e hw herr'] at hmem
            exact Or.inl hmem
        | false =>
            cases pub with
            | thrown msg =>
                rw [processTarget_thrown serverKey d now resolver st e msg hw herr']
                  at hmem
                exact Or.inl hmem
            | success data =>
                rw [processTarget_success serverKey d now resolver st e data hw herr']
                  at hmem
                cases hid : (resolveIds data resolver).1 with
                | none =>
                    rw [hid] at hmem
                    exact Or.inl hmem
                | some i =>
                    rw [hid] at hmem
                    rcases List.mem_append.mp hmem with hmem' | hmem'
                    · exact Or.inl hmem'
                    · refine Or.inr ?_
                      rw [List.mem_singleton.mp hmem']

/-- Witness for C9: a non-live record passes through a tick untouched; a tick
result that is live came from a live record; a freshly appended record is
live. -/
theorem c9_lifecycle_monotone_witness :
    (monitorRecord 200 .nullThing ⟨"abc", "r", "srv", 100, .expired, none⟩
      = ⟨⟨"abc", "r", "srv", 100, .expired, none⟩, [], false⟩)
    ∧ (⟨"abc", "r", "srv", 100, .live, none⟩ : PostedRecord).status = .live
    ∧ ((⟨"abc", "r", "srv", 86400, .live, none⟩ : PostedRecord) ∈ ([] : List PostedRecord)
        ∨ (⟨"abc", "r", "srv", 86400, .live, none⟩ : PostedRecord).status = .live) :=
  ⟨(c9_lifecycle_monotone 200 .nullThing ⟨"abc", "r", "srv", 100, .expired, none⟩
      "srv" ⟨"", "", ""⟩ false (.thrown "x") none ⟨[], [], [], 0⟩
      ⟨"r", "r", ⟨some 1, some false⟩, some ⟨"self", "t", "b", "", "", ""⟩⟩
      ⟨"abc", "r", "srv", 100, .expired, none⟩).1 (by decide),
   (c9_lifecycle_monotone 200 .nullThing ⟨"abc", "r", "srv", 100, .live, none⟩
      "srv" ⟨"", "", ""⟩ false (.thrown "x") none ⟨[], [], [], 0⟩
      ⟨"r", "r", ⟨some 1, some false⟩, some ⟨"self", "t", "b", "", "", ""⟩⟩
      ⟨"abc", "r", "srv", 100, .live, none⟩).2.1 (by decide),
   (c9_lifecycle_monotone 86400000 .nullThing ⟨"abc", "r", "srv", 100, .live, none⟩
      "srv" ⟨"", "", ""⟩ false (.success ⟨some "abc", none, some "u"⟩) none ⟨[], [], [], 0⟩
      ⟨"r", "r", ⟨some 1, some false⟩, some ⟨"self", "t", "b", "", "", ""⟩⟩
      ⟨"abc", "r", "srv", 86400, .live, none⟩).2.2 (by decide)⟩

end Cryer
